import Mathlib

/-!
Shallow embedding of the overnight test orchestrator
(`src/test/scripts/overnight_test_runner.py`) and the shared telemetry client
(`src/test/utils/common.py`) of the signalk-anchorAlarmConnector repository.

Remote reads and writes are modelled by their observable outcomes: each
fallible network call is an `Option`/sum value supplied by an environment
record, exactly one value per call site, in the order the Python code makes
the calls.  Machine floats are modelled as exact rationals (`Rat`); the
float constant `math.pi` is the exact rational value of the IEEE-754 double.
-/

namespace Overnight

/-- An opaque bearer token (the JSON `token` string). -/
abbrev Token := Nat

/-- `SAMPLE_INTERVAL = 0.5` (500 ms sampling). -/
def SAMPLE_INTERVAL : Rat := 1/2

/-- `0.000009`: degrees of latitude per meter (`METERS_TO_LAT` in common.py,
and the literal in `collect_sample`). -/
def METERS_TO_LAT : Rat := 9/1000000

/-- The IEEE-754 double value of `math.pi`. -/
def piFloat : Rat := 884279719003555/281474976710656

/-- A parsed `navigation/position/value` payload. -/
structure Pos where
  latitude : Rat
  longitude : Rat
deriving Repr, DecidableEq

/-- The fields of the simulator-state blob that the orchestrator reads
(`scopeRatio`, `rodeDeployed`); each is optional because the code accesses
them with `dict.get(key, 0)`. -/
structure SimState where
  scopeRatio : Option Rat
  rodeDeployed : Option Rat
deriving Repr, DecidableEq

/-- The outcomes of the four telemetry reads made by one `collect_sample`
call: `get_position`, `get_speed`, `get_heading` (raw radians, before the
degree conversion), `get_simulation_state`.  `none` is a failed read. -/
structure TickReads where
  pos : Option Pos
  speed : Option Rat
  headingRad : Option Rat
  simState : Option SimState
deriving Repr, DecidableEq

/-- `get_heading`: reads `headingTrue` in radians and returns
`rad * 180 / math.pi` degrees, `None` on failure. -/
def get_heading (r : Option Rat) : Option Rat :=
  r.map (fun rad => rad * 180 / piFloat)

/-- Python float `%` (sign follows the divisor): `a - b * floor (a / b)`. -/
def pyMod (a b : Rat) : Rat := a - b * ⌊a / b⌋

/-- The `position` sub-object of a sample. -/
structure SamplePos where
  latitude : Rat
  longitude : Rat
  speed : Rat
  heading : Rat
deriving Repr, DecidableEq

/-- One telemetry snapshot, as assembled by `collect_sample` (the ISO
timestamp string is not modelled). -/
structure Sample where
  elapsed_sec : Rat
  position : SamplePos
  distance_from_start : Rat
  simulation_state : Option SimState
deriving Repr, DecidableEq

/-- `collect_sample`: returns `None` unless the position read, the speed
read (`speed is not None`) and the heading read all succeed and the heading
is truthy (a Python `0.0` heading is falsy, hence dropped); otherwise builds
the snapshot with `distance_from_start = (lat - start_lat) / 0.000009` and
`heading % 360 if heading else 0`. -/
def collect_sample (t : TickReads) (start_lat : Rat) (elapsed : Rat) :
    Option Sample :=
  match t.pos, t.speed, get_heading t.headingRad with
  | some p, some v, some h =>
    if h = 0 then none
    else
      let lat_delta := (p.latitude - start_lat) / METERS_TO_LAT
      some { elapsed_sec := elapsed
           , position := { latitude := p.latitude
                         , longitude := p.longitude
                         , speed := v
                         , heading := if h = 0 then 0 else pyMod h 360 }
           , distance_from_start := lat_delta
           , simulation_state := t.simState }
  | _, _, _ => none

/-- The two operation types of the matrix (`TEST_TYPES`). -/
inductive TestType where
  | autoDrop
  | autoRetrieve
deriving Repr, DecidableEq

/-- `latest.get('simulation_state', {}).get('scopeRatio', 0)`. -/
def scopeOf (s : Sample) : Rat :=
  match s.simulation_state with
  | none => 0
  | some st => st.scopeRatio.getD 0

/-- `latest.get('simulation_state', {}).get('rodeDeployed', 0)`. -/
def rodeOf (s : Sample) : Rat :=
  match s.simulation_state with
  | none => 0
  | some st => st.rodeDeployed.getD 0

/-- The per-tick termination test of the data-collection loop in `run_test`:
`autoDrop` completes when `scope >= 5.0`, `autoRetrieve` when
`rode <= 0.1`, each read off the most recent sample. -/
def completionDetector (ty : TestType) (s : Sample) : Bool :=
  match ty with
  | .autoDrop => decide (5 ≤ scopeOf s)
  | .autoRetrieve => decide (rodeOf s ≤ 1/10)

/-- The data-collection loop of `run_test` (lines 401–438): one entry of
`ticks` per sampling instant; a successful `collect_sample` is appended;
after every iteration the loop breaks when the latest sample (`samples[-1]`)
satisfies the completion test.  Returns the collected samples and whether
the loop broke early (`true`) or ran out of ticks, i.e. hit the
`TEST_TIMEOUT` wall clock (`false`). -/
def sampleLoop (ty : TestType) (start_lat : Rat) :
    Nat → List TickReads → List Sample → List Sample × Bool
  | _, [], acc => (acc, false)
  | i, t :: ts, acc =>
    let acc' :=
      match collect_sample t start_lat ((i : Rat) * SAMPLE_INTERVAL) with
      | some s => acc ++ [s]
      | none => acc
    match acc'.getLast? with
    | none => sampleLoop ty start_lat (i+1) ts acc'
    | some latest =>
      if completionDetector ty latest then (acc', true)
      else sampleLoop ty start_lat (i+1) ts acc'

/-! ## Device health monitor (`check_chain_controller`, `restart_chain_controller`,
`ensure_chain_controller`) -/

/-- The outcomes of the two remote calls inside one `check_chain_controller`
call: the `get_auth_token` result and the `rodeDeployed` read, the latter
reduced to its `$source` field (`none` = the GET raised; tag strings are
modelled as character lists). -/
structure CheckReads where
  token : Option Token
  rodeSource : Option (List Char)
deriving Repr, DecidableEq

/-- The live-source tag `'ws.'` that marks a websocket-connected chain
controller. -/
def wsTag : List Char := ['w', 's', '.']

/-- `check_chain_controller`: needs a token, a successful `rodeDeployed`
read, and a `$source` starting with the live websocket prefix `ws.`
(`source.startswith('ws.')`; the message string it also returns is not
modelled). -/
def check_chain_controller (c : CheckReads) : Bool :=
  match c.token with
  | none => false
  | some _ =>
    match c.rodeSource with
    | none => false
    | some src => wsTag.isPrefixOf src

/-- The outcomes inside one `restart_chain_controller` call: whether the
POST to the ESP32 restart endpoint succeeded, and the reads of each of the
reconnection polls (`for attempt in range(5)`), indexed by attempt. -/
structure RestartEnv where
  restartPostOk : Bool
  polls : Nat → CheckReads

/-- The `for attempt in range(n)` reconnection loop: returns `true` at the
first successful `check_chain_controller`, `false` after `n` failures. -/
def pollLoop (polls : Nat → CheckReads) : Nat → Nat → Bool
  | 0, _ => false
  | n+1, i =>
    if check_chain_controller (polls i) then true
    else pollLoop polls n (i+1)

/-- `restart_chain_controller`: POST the restart (an exception there returns
`False` at once), wait 15 s (time not modelled), then poll the health check
up to 5 times with a 3 s backoff. -/
def restart_chain_controller (e : RestartEnv) : Bool :=
  if e.restartPostOk then pollLoop e.polls 5 0 else false

/-- The outcomes consumed by one `ensure_chain_controller` call. -/
structure HealthEnv where
  initialCheck : CheckReads
  restart : RestartEnv

/-- `ensure_chain_controller`: pass the health check, or restart and poll. -/
def ensure_chain_controller (h : HealthEnv) : Bool :=
  if check_chain_controller h.initialCheck then true
  else restart_chain_controller h.restart

/-! ## Orchestrator (`run_test`, `run_all_tests`) -/

/-- The global counters `tests_completed` / `tests_passed` / `tests_failed`. -/
structure Counters where
  completed : Nat
  passed : Nat
  failed : Nat
deriving Repr, DecidableEq

/-- The counter update shared by every early-failure path of `run_test`:
`tests_failed += 1; tests_completed += 1`. -/
def failTest (c : Counters) : Counters :=
  { c with failed := c.failed + 1, completed := c.completed + 1 }

/-- The `test_metadata` block persisted with every saved test
(timestamp strings and durations are not modelled). -/
structure TestMeta where
  test_number : Nat
  test_type : TestType
  wind_speed_kn : Nat
  depth_m : Nat
  sample_count : Nat
  completed : Bool
  timeout : Bool
deriving Repr, DecidableEq

/-- The `summary` block computed at save time from a non-empty sample list. -/
structure Summary where
  final_scope : Rat
  final_rode : Rat
  final_distance : Rat
  max_speed : Rat
  final_speed : Rat
deriving Repr, DecidableEq

/-- `max([s.get('position', {}).get('speed', 0) for s in samples])` for the
non-empty list `s :: rest`. -/
def maxSpeed (s : Sample) (rest : List Sample) : Rat :=
  rest.foldl (fun a x => max a x.position.speed) s.position.speed

/-- The `test_data['summary']` block: present exactly when `samples` is
non-empty, computed from `samples[-1]`. -/
def mkSummary : List Sample → Option Summary
  | [] => none
  | s :: rest =>
    let fin := (s :: rest).getLast (List.cons_ne_nil s rest)
    some { final_scope := scopeOf fin
         , final_rode := rodeOf fin
         , final_distance := fin.distance_from_start
         , max_speed := maxSpeed s rest
         , final_speed := fin.position.speed }

/-- One persisted test artifact (`test_data`). -/
structure TestData where
  meta : TestMeta
  samples : List Sample
  summary : Option Summary
deriving Repr, DecidableEq

/-- The outcomes of every fallible step of one `run_test` call, in the
order the code makes them: `get_auth_token`, the whole
`ensure_chain_controller` phase, `stop_chain`, `reset_anchor`,
`configure_environment`, `reset_simulation` (logged as a warning only; it
gates nothing), the initial `get_position`, whether `send_command` returned
an `error` key, and the reads of each sampling instant. -/
structure Env where
  token : Option Token
  health : HealthEnv
  stopOk : Bool
  resetOk : Bool
  configOk : Bool
  simResetOk : Bool
  startPos : Option Pos
  commandErr : Bool
  ticks : List TickReads

/-- `run_test(test_num, wind_speed, depth, test_type)`: the per-test phase
sequence.  Every failure path performs `failTest`; reaching phase 4 always
saves a `TestData` and then scores
`passed = len(samples) > 0 and test_data.get('summary')`. -/
def run_test (e : Env) (testNum wind depth : Nat) (ty : TestType)
    (c : Counters) : Option TestData × Counters :=
  match e.token with
  | none => (none, failTest c)
  | some _ =>
    if ensure_chain_controller e.health = false then (none, failTest c)
    else if (e.stopOk && e.resetOk) = false then (none, failTest c)
    else if e.configOk = false then (none, failTest c)
    else
      match e.startPos with
      | none => (none, failTest c)
      | some sp =>
        if e.commandErr then (none, failTest c)
        else
          let samples := (sampleLoop ty sp.latitude 0 e.ticks []).1
          let data : TestData :=
            { meta := { test_number := testNum
                      , test_type := ty
                      , wind_speed_kn := wind
                      , depth_m := depth
                      , sample_count := samples.length
                      , completed := true
                      , timeout := samples.length = 0 }
            , samples := samples
            , summary := mkSummary samples }
          let passed := decide (0 < samples.length) && data.summary.isSome
          if passed then
            (some data,
             { c with passed := c.passed + 1, completed := c.completed + 1 })
          else
            (some data,
             { c with failed := c.failed + 1, completed := c.completed + 1 })

/-- `WIND_SPEEDS = [4, 8, 12, 18, 20, 25]` (knots). -/
def WIND_SPEEDS : List Nat := [4, 8, 12, 18, 20, 25]

/-- `DEPTHS = [3, 5, 8, 12]` (meters). -/
def DEPTHS : List Nat := [3, 5, 8, 12]

/-- `TEST_TYPES = ['autoDrop', 'autoRetrieve']`. -/
def TEST_TYPES : List TestType := [.autoDrop, .autoRetrieve]

/-- The matrix built by `run_all_tests`: wind outermost, then depth, then
test type. -/
def test_matrix : List (Nat × Nat × TestType) :=
  WIND_SPEEDS.flatMap fun w =>
    DEPTHS.flatMap fun d =>
      TEST_TYPES.map fun ty => (w, d, ty)

/-- The `for wind, depth, test_type in test_matrix: run_test(...)` loop of
`run_all_tests`; `envs i` supplies the remote-call outcomes of the test with
number `i` and `i` is the running `test_num` (starting at 1). -/
def runTests (envs : Nat → Env) :
    List (Nat × Nat × TestType) → Nat → Counters → Counters
  | [], _, c => c
  | (w, d, ty) :: rest, i, c =>
    runTests envs rest (i+1) (run_test (envs i) i w d ty c).2

/-! ## Telemetry client (`common.py`: `get_signalk_value`) -/

/-- The outcome of one authenticated GET: a value, an HTTP authorization
error, or any other transport error — all non-`ok` outcomes are raised as
exceptions by `urllib` and caught by the same `except` clause. -/
inductive CallResult where
  | ok (v : Rat)
  | authError
  | transportError
deriving Repr, DecidableEq

/-- The remote outcomes consumed by one `get_signalk_value` call:
the `get_auth_token` result (used only when no token is passed in) and the
GET outcome as a function of the bearer token used. -/
structure ApiEnv where
  auth : Option Token
  call : Token → CallResult

/-- `get_signalk_value(path, token=None)`: fetch a token only when none is
supplied, then make a single GET; every exception (authorization failures
included) returns `None` with no retry. -/
def get_signalk_value (env : ApiEnv) (token : Option Token) : Option Rat :=
  let tok := match token with
    | none => env.auth
    | some t => some t
  match tok with
  | none => none
  | some t =>
    match env.call t with
    | .ok v => some v
    | .authError => none
    | .transportError => none

/-! ## Helper lemmas -/

lemma mem_of_getLast_eq {α : Type} {l : List α} {a : α}
    (h : l.getLast? = some a) : a ∈ l := by
  obtain ⟨hne, rfl⟩ :=
    List.mem_getLast?_eq_getLast (show a ∈ l.getLast? from h)
  exact List.getLast_mem hne

lemma mkSummary_isSome {l : List Sample} :
    (mkSummary l).isSome = true ↔ l ≠ [] := by
  cases l <;> simp [mkSummary]

/-- One unfolding of the poll loop: the loop returns `true` exactly when one
of its `n` attempts passes the health check. -/
lemma pollLoop_iff (polls : Nat → CheckReads) :
    ∀ (n i : Nat),
      pollLoop polls n i = true ↔
        ∃ j, j < n ∧ check_chain_controller (polls (i + j)) = true := by
  intro n
  induction n with
  | zero => intro i; simp [pollLoop]
  | succ m ih =>
    intro i
    by_cases h : check_chain_controller (polls i) = true
    · have hpl : pollLoop polls (m+1) i = true := by simp [pollLoop, h]
      rw [hpl]
      exact ⟨fun _ => ⟨0, Nat.succ_pos m, by simpa using h⟩, fun _ => rfl⟩
    · have hpl : pollLoop polls (m+1) i = pollLoop polls m (i+1) := by
        simp [pollLoop, h]
      rw [hpl, ih (i+1)]
      constructor
      · rintro ⟨j, hj, hc⟩
        refine ⟨j + 1, by omega, ?_⟩
        have he : i + (j + 1) = i + 1 + j := by omega
        rw [he]; exact hc
      · rintro ⟨j, hj, hc⟩
        cases j with
        | zero => rw [Nat.add_zero] at hc; exact absurd hc h
        | succ j' =>
          refine ⟨j', by omega, ?_⟩
          have he : i + 1 + j' = i + (j' + 1) := by omega
          rw [he]; exact hc

/-- The data-collection loop terminates early exactly at the first sample
that satisfies the completion test: given that no accumulated sample
satisfies it, no sample before the last does either, and the early flag is
set exactly when the last sample satisfies it. -/
lemma sampleLoop_invariant (ty : TestType) (lat : Rat) :
    ∀ (ts : List TickReads) (i : Nat) (acc : List Sample),
      (∀ s ∈ acc, completionDetector ty s = false) →
      (∀ s ∈ (sampleLoop ty lat i ts acc).1.dropLast,
        completionDetector ty s = false) ∧
      ((sampleLoop ty lat i ts acc).2 = true ↔
        ∃ s, (sampleLoop ty lat i ts acc).1.getLast? = some s ∧
          completionDetector ty s = true) := by
  intro ts
  induction ts with
  | nil =>
    intro i acc hacc
    refine ⟨fun s hs => hacc s ((List.dropLast_sublist acc).subset hs), ?_⟩
    simp only [sampleLoop]
    constructor
    · intro h; exact absurd h (by simp)
    · rintro ⟨s, hs, hc⟩
      exact absurd hc (by simp [hacc s (mem_of_getLast_eq hs)])
  | cons t ts ih =>
    intro i acc hacc
    rcases hcs : collect_sample t lat ((i : Rat) * SAMPLE_INTERVAL) with _ | s
    · -- failed read: the accumulator is unchanged
      rcases hgl : acc.getLast? with _ | latest
      · simpa [sampleLoop, hcs, hgl] using ih (i+1) acc hacc
      · have hlf : completionDetector ty latest = false :=
          hacc latest (mem_of_getLast_eq hgl)
        simpa [sampleLoop, hcs, hgl, hlf] using ih (i+1) acc hacc
    · -- a sample was appended; the latest sample is `s`
      by_cases hc : completionDetector ty s = true
      · have : sampleLoop ty lat i (t :: ts) acc = (acc ++ [s], true) := by
          simp [sampleLoop, hcs, List.getLast?_concat, hc]
        rw [this]
        refine ⟨?_, ?_⟩
        · intro x hx
          rw [List.dropLast_concat] at hx
          exact hacc x hx
        · simp only [true_iff]
          exact ⟨s, List.getLast?_concat acc, hc⟩
      · have hacc' : ∀ x ∈ acc ++ [s], completionDetector ty x = false := by
          intro x hx
          rcases List.mem_append.mp hx with h | h
          · exact hacc x h
          · simp at h; subst h; simpa using hc
        have : sampleLoop ty lat i (t :: ts) acc
            = sampleLoop ty lat (i+1) ts (acc ++ [s]) := by
          simp [sampleLoop, hcs, List.getLast?_concat, hc]
        rw [this]
        exact ih (i+1) (acc ++ [s]) hacc'

/-- When every tick's reads fail, the loop collects nothing and never
breaks early: it runs until the tick list (the wall-clock budget) runs out. -/
lemma sampleLoop_all_none (ty : TestType) (lat : Rat) :
    ∀ (ts : List TickReads) (i : Nat),
      (∀ t ∈ ts, ∀ (la el : Rat), collect_sample t la el = none) →
      sampleLoop ty lat i ts [] = ([], false) := by
  intro ts
  induction ts with
  | nil => intro i _; simp [sampleLoop]
  | cons t ts ih =>
    intro i hfail
    have hc : collect_sample t lat ((i : Rat) * SAMPLE_INTERVAL) = none :=
      hfail t (List.mem_cons_self t ts) lat _
    have := ih (i+1) (fun x hx la el => hfail x (List.mem_cons_of_mem t hx) la el)
    simp [sampleLoop, hc, this]

/-- The counter bookkeeping of one `run_test` call: `tests_completed` rises
by exactly one on every path; exactly one of `tests_passed`/`tests_failed`
rises by one; and `tests_passed` rises exactly when a test artifact with a
non-empty sample list was persisted. -/
lemma run_test_step (e : Env) (n w d : Nat) (ty : TestType) (c : Counters) :
    (run_test e n w d ty c).2.completed = c.completed + 1 ∧
    ((run_test e n w d ty c).2.passed = c.passed + 1 ∧
        (run_test e n w d ty c).2.failed = c.failed ∨
      (run_test e n w d ty c).2.passed = c.passed ∧
        (run_test e n w d ty c).2.failed = c.failed + 1) ∧
    ((run_test e n w d ty c).2.passed = c.passed + 1 ↔
      ∃ dta, (run_test e n w d ty c).1 = some dta ∧ dta.samples ≠ []) := by
  unfold run_test
  rcases e.token with _ | tok
  · exact ⟨rfl, Or.inr ⟨rfl, rfl⟩, by simp [failTest]⟩
  by_cases h1 : ensure_chain_controller e.health = false
  · simp only [h1, if_true]
    exact ⟨rfl, Or.inr ⟨rfl, rfl⟩, by simp [failTest]⟩
  simp only [h1, if_false]
  by_cases h2 : (e.stopOk && e.resetOk) = false
  · simp only [h2, if_true]
    exact ⟨rfl, Or.inr ⟨rfl, rfl⟩, by simp [failTest]⟩
  simp only [h2, if_false]
  by_cases h3 : e.configOk = false
  · simp only [h3, if_true]
    exact ⟨rfl, Or.inr ⟨rfl, rfl⟩, by simp [failTest]⟩
  simp only [h3, if_false]
  rcases e.startPos with _ | sp
  · exact ⟨rfl, Or.inr ⟨rfl, rfl⟩, by simp [failTest]⟩
  by_cases h4 : e.commandErr
  · simp only [h4, if_true]
    exact ⟨rfl, Or.inr ⟨rfl, rfl⟩, by simp [failTest]⟩
  simp only [h4, if_false]
  by_cases h5 :
      (decide (0 < (sampleLoop ty sp.latitude 0 e.ticks []).1.length) &&
        (mkSummary (sampleLoop ty sp.latitude 0 e.ticks []).1).isSome) = true
  · simp only [h5, if_true]
    refine ⟨rfl, Or.inl ⟨rfl, rfl⟩, ?_⟩
    constructor
    · intro _
      refine ⟨_, rfl, ?_⟩
      have hand := (Bool.and_eq_true _ _).mp h5
      have hl : 0 < (sampleLoop ty sp.latitude 0 e.ticks []).1.length :=
        of_decide_eq_true hand.1
      exact List.ne_nil_of_length_pos hl
    · intro _; rfl
  · simp only [h5, if_false]
    refine ⟨rfl, Or.inr ⟨rfl, rfl⟩, ?_⟩
    constructor
    · intro h; exact absurd h (by simp)
    · rintro ⟨dta, hd, hne⟩
      injection hd with hd
      refine absurd ?_ h5
      have hsam : dta.samples = (sampleLoop ty sp.latitude 0 e.ticks []).1 := by
        rw [← hd]
      rw [hsam] at hne
      simp only [Bool.and_eq_true, decide_eq_true_eq]
      exact ⟨List.length_pos_of_ne_nil hne, mkSummary_isSome.mpr hne⟩

/-- Counter bookkeeping of the matrix loop: each processed entry adds one to
`tests_completed` and one to `tests_passed + tests_failed`. -/
lemma runTests_counters (envs : Nat → Env) :
    ∀ (l : List (Nat × Nat × TestType)) (i : Nat) (c : Counters),
      (runTests envs l i c).completed = c.completed + l.length ∧
      (runTests envs l i c).passed + (runTests envs l i c).failed
        = c.passed + c.failed + l.length := by
  intro l
  induction l with
  | nil => intro i c; simp [runTests]
  | cons hd tl ih =>
    intro i c
    obtain ⟨w, d, ty⟩ := hd
    obtain ⟨hc, hpf, -⟩ := run_test_step (envs i) i w d ty c
    obtain ⟨ihc, ihpf⟩ := ih (i+1) (run_test (envs i) i w d ty c).2
    constructor
    · simp only [runTests, ihc, hc, List.length_cons]; omega
    · simp only [runTests, ihpf, List.length_cons]
      rcases hpf with ⟨hp, hf⟩ | ⟨hp, hf⟩ <;> rw [hp, hf] <;> omega

/-- An `Option` that is `some` equals `some` of its `getD` unwrapping. -/
lemma eq_some_getD {α : Type} {o : Option α} (d : α) (h : o.isSome = true) :
    o = some (o.getD d) := by
  cases o
  · simp at h
  · rfl

/-- Every persisted artifact records `completed = True` and
`timeout = (len(samples) == 0)`, and its samples are the collection loop's
output for the test's start latitude. -/
lemma run_test_data_meta (e : Env) (n w d : Nat) (ty : TestType)
    (c : Counters) (dta : TestData) :
    (run_test e n w d ty c).1 = some dta →
    dta.meta.completed = true ∧
    dta.meta.timeout = decide (dta.samples.length = 0) ∧
    ∃ sp : Pos, e.startPos = some sp ∧
      dta.samples = (sampleLoop ty sp.latitude 0 e.ticks []).1 := by
  unfold run_test
  rcases e.token with _ | tok
  · intro h; exact absurd h (by simp)
  by_cases h1 : ensure_chain_controller e.health = false
  · simp only [h1, if_true]; intro h; exact absurd h (by simp)
  simp only [h1, if_false]
  by_cases h2 : (e.stopOk && e.resetOk) = false
  · simp only [h2, if_true]; intro h; exact absurd h (by simp)
  simp only [h2, if_false]
  by_cases h3 : e.configOk = false
  · simp only [h3, if_true]; intro h; exact absurd h (by simp)
  simp only [h3, if_false]
  rcases hsp : e.startPos with _ | sp
  · intro h; exact absurd h (by simp)
  by_cases h4 : e.commandErr
  · simp only [h4, if_true]; intro h; exact absurd h (by simp)
  simp only [h4, if_false]
  by_cases h5 :
      (decide (0 < (sampleLoop ty sp.latitude 0 e.ticks []).1.length) &&
        (mkSummary (sampleLoop ty sp.latitude 0 e.ticks []).1).isSome) = true
  · simp only [h5, if_true]
    intro h
    injection h with h
    subst h
    exact ⟨rfl, rfl, sp, rfl, rfl⟩
  · simp only [h5, if_false]
    intro h
    injection h with h
    subst h
    exact ⟨rfl, rfl, sp, rfl, rfl⟩

/-- The failure modes of the six phases of a `run_test` call, in code order:
no auth token, chain controller not responsive after the restart attempt,
stop/reset failure, configuration failure, no initial position, a command
error, or sampling that produces no samples at all. -/
def phaseFailure (e : Env) (ty : TestType) : Prop :=
  e.token = none ∨ ensure_chain_controller e.health = false ∨
  e.stopOk = false ∨ e.resetOk = false ∨ e.configOk = false ∨
  e.startPos = none ∨ e.commandErr = true ∨
  ∀ p : Pos, e.startPos = some p → (sampleLoop ty p.latitude 0 e.ticks []).1 = []

/-- Any phase failure is scored as a failed test: `tests_failed` and
`tests_completed` each rise by one and `tests_passed` is untouched. -/
lemma run_test_phase_failure (e : Env) (n w d : Nat) (ty : TestType)
    (c : Counters) (hfail : phaseFailure e ty) :
    (run_test e n w d ty c).2.failed = c.failed + 1 ∧
    (run_test e n w d ty c).2.completed = c.completed + 1 ∧
    (run_test e n w d ty c).2.passed = c.passed := by
  unfold run_test
  rcases htok : e.token with _ | tok
  · exact ⟨rfl, rfl, rfl⟩
  by_cases h1 : ensure_chain_controller e.health = false
  · simp only [h1, if_true]; exact ⟨rfl, rfl, rfl⟩
  simp only [h1, if_false]
  by_cases h2 : (e.stopOk && e.resetOk) = false
  · simp only [h2, if_true]; exact ⟨rfl, rfl, rfl⟩
  simp only [h2, if_false]
  by_cases h3 : e.configOk = false
  · simp only [h3, if_true]; exact ⟨rfl, rfl, rfl⟩
  simp only [h3, if_false]
  rcases hsp : e.startPos with _ | sp
  · exact ⟨rfl, rfl, rfl⟩
  by_cases h4 : e.commandErr
  · simp only [h4, if_true]; exact ⟨rfl, rfl, rfl⟩
  simp only [h4, if_false]
  have hsamp : (sampleLoop ty sp.latitude 0 e.ticks []).1 = [] := by
    rcases hfail with h | h | h | h | h | h | h | h
    · rw [htok] at h; exact absurd h (by simp)
    · exact absurd h h1
    · refine absurd ?_ h2
      rw [h]; simp
    · refine absurd ?_ h2
      rw [h]; simp
    · exact absurd h h3
    · rw [hsp] at h; exact absurd h (by simp)
    · exact absurd h h4
    · exact h sp hsp
  have h5 :
      (decide (0 < (sampleLoop ty sp.latitude 0 e.ticks []).1.length) &&
        (mkSummary (sampleLoop ty sp.latitude 0 e.ticks []).1).isSome) = false := by
    rw [hsamp]
    simp [mkSummary]
  simp only [h5, if_false]
  exact ⟨rfl, rfl, rfl⟩

/-! ## Concrete fixtures -/

/-- A check whose `$source` is `'ws.a'`: the live-prefix test passes. -/
def checkOk : CheckReads :=
  { token := some 1, rodeSource := some ['w', 's', '.', 'a'] }

/-- A check whose `$source` is `'x'`: no live prefix. -/
def checkBad : CheckReads :=
  { token := some 1, rodeSource := some ['x'] }

/-- A healthy controller environment: the initial check passes outright. -/
def healthOk : HealthEnv :=
  { initialCheck := checkOk
  , restart := { restartPostOk := true, polls := fun _ => checkOk } }

/-- An unreachable controller whose restart succeeds and whose third
reconnection poll comes back on a live source. -/
def healthCx : HealthEnv :=
  { initialCheck := checkBad
  , restart :=
    { restartPostOk := true
    , polls := fun j => if j = 2 then checkOk else checkBad } }

/-- A tick on which every telemetry read fails. -/
def badTick : TickReads :=
  { pos := none, speed := none, headingRad := none, simState := none }

/-- A fully successful tick with scope ratio 2, below the 5.0 target. -/
def slowTick : TickReads :=
  { pos := some ⟨1, 2⟩, speed := some 3, headingRad := some piFloat
  , simState := some ⟨some 2, some 50⟩ }

/-- A fully successful tick with scope ratio 6, beyond the 5.0 target. -/
def doneTick : TickReads :=
  { pos := some ⟨1, 2⟩, speed := some 3, headingRad := some piFloat
  , simState := some ⟨some 6, some 50⟩ }

/-- A successful tick whose raw heading is exactly 0 rad (due north). -/
def northTick : TickReads :=
  { pos := some ⟨1, 2⟩, speed := some 3, headingRad := some 0
  , simState := some ⟨some 2, some 50⟩ }

/-- A successful tick with speed exactly 0 and a nonzero heading. -/
def zeroSpeedTick : TickReads :=
  { pos := some ⟨1, 2⟩, speed := some 0, headingRad := some 1
  , simState := none }

/-- 21 consecutive ticks on which every telemetry read fails. -/
def missTicks : List TickReads :=
  [badTick, badTick, badTick, badTick, badTick, badTick, badTick,
   badTick, badTick, badTick, badTick, badTick, badTick, badTick,
   badTick, badTick, badTick, badTick, badTick, badTick, badTick]

/-- A run environment whose phases all succeed, with the given tick reads;
the start position is `(1, 2)`. -/
def envWith (ts : List TickReads) : Env :=
  { token := some 1
  , health := healthOk
  , stopOk := true
  , resetOk := true
  , configOk := true
  , simResetOk := true
  , startPos := some ⟨1, 2⟩
  , commandErr := false
  , ticks := ts }

/-- A dummy sample used only to unwrap `Option Sample` values. -/
def sample0 : Sample :=
  { elapsed_sec := 0, position := ⟨0, 0, 0, 0⟩
  , distance_from_start := 0, simulation_state := none }

/-- A dummy artifact used only to unwrap `Option TestData` values. -/
def data0 : TestData :=
  { meta := { test_number := 0, test_type := .autoDrop, wind_speed_kn := 0
            , depth_m := 0, sample_count := 0, completed := false
            , timeout := false }
  , samples := []
  , summary := none }

/-- An API environment in which token `1` is expired (every call with it
fails with an authorization error), while a fresh authentication yields
token `2`, with which the call succeeds. -/
def apiCx : ApiEnv :=
  { auth := some 2
  , call := fun t => if t = 1 then .authError else .ok 7 }

/-! ## Claims -/

/-- C1 counterexample: with every phase healthy and a single collected
sample whose scope ratio is 2 (the 5.0 target is never reached), the
collection loop runs out its tick budget — the per-test timeout path, early
flag `false` — yet `tests_passed` is incremented, contradicting the claim
that such a run is scored as a timeout and does not increment `passed`. -/
theorem claim1_counterexample :
    (sampleLoop .autoDrop 1 0 [slowTick] []).2 = false ∧
    (run_test (envWith [slowTick]) 1 4 3 .autoDrop ⟨0, 0, 0⟩).2.passed = 1 ∧
    (run_test (envWith [slowTick]) 1 4 3 .autoDrop ⟨0, 0, 0⟩).2.completed = 1 := by
  have hen : ensure_chain_controller healthOk = true := by decide
  refine ⟨?_, ?_, ?_⟩ <;>
  norm_num [run_test, envWith, hen, sampleLoop, collect_sample, get_heading,
    completionDetector, scopeOf, slowTick, piFloat, SAMPLE_INTERVAL,
    METERS_TO_LAT, mkSummary, maxSpeed]

/-- C1 amended: for every `run_test` call, `tests_completed` rises by
exactly one whatever the outcome, and `tests_passed` rises (by one) if and
only if a test artifact with at least one sample is persisted — in
particular a run that exhausts the timeout without the completion condition
firing still increments `passed` as long as it collected a sample. -/
theorem claim1_amended_thm (e : Env) (n w d : Nat) (ty : TestType)
    (c : Counters) :
    (run_test e n w d ty c).2.completed = c.completed + 1 ∧
    ((run_test e n w d ty c).2.passed = c.passed + 1 ∨
      (run_test e n w d ty c).2.passed = c.passed) ∧
    ((run_test e n w d ty c).2.passed = c.passed + 1 ↔
      ∃ dta, (run_test e n w d ty c).1 = some dta ∧ dta.samples ≠ []) := by
  obtain ⟨h1, h2, h3⟩ := run_test_step e n w d ty c
  exact ⟨h1, h2.imp (fun h => h.1) (fun h => h.1), h3⟩

/-- C2 counterexample: after 21 consecutive ticks on which every telemetry
read fails, the run is not terminated: a 22nd, successful tick is still
collected, and the test is even scored as passed (and not failed),
contradicting the claim that exceeding 20 consecutive missed reads
terminates the run early as FAILED. -/
theorem claim2_counterexample :
    (sampleLoop .autoDrop 1 0 (missTicks ++ [doneTick]) []).1.length = 1 ∧
    (run_test (envWith (missTicks ++ [doneTick])) 1 4 3 .autoDrop
      ⟨0, 0, 0⟩).2.passed = 1 ∧
    (run_test (envWith (missTicks ++ [doneTick])) 1 4 3 .autoDrop
      ⟨0, 0, 0⟩).2.failed = 0 := by
  have hen : ensure_chain_controller healthOk = true := by decide
  refine ⟨?_, ?_, ?_⟩ <;>
  norm_num [run_test, envWith, hen, sampleLoop, collect_sample, get_heading,
    completionDetector, scopeOf, missTicks, badTick, doneTick, piFloat,
    SAMPLE_INTERVAL, METERS_TO_LAT, mkSummary, maxSpeed]

/-- C2 amended: the sampler keeps no count of consecutive missed reads and
never terminates a run early because of them; failed reads are simply
dropped.  A run on which every read fails runs out its full tick budget
with zero samples and no early termination, is scored as failed, and its
persisted artifact records `timeout = true`. -/
theorem claim2_amended_thm :
    (∀ (ty : TestType) (lat : Rat) (i : Nat) (ts : List TickReads),
      (∀ t ∈ ts, ∀ (la el : Rat), collect_sample t la el = none) →
      sampleLoop ty lat i ts [] = ([], false)) ∧
    (∀ (e : Env) (n w d : Nat) (ty : TestType) (c : Counters),
      (∀ t ∈ e.ticks, ∀ (la el : Rat), collect_sample t la el = none) →
      (run_test e n w d ty c).2.failed = c.failed + 1 ∧
      (run_test e n w d ty c).2.completed = c.completed + 1 ∧
      ∀ dta, (run_test e n w d ty c).1 = some dta →
        dta.meta.timeout = true) := by
  constructor
  · intro ty lat i ts hfail
    exact sampleLoop_all_none ty lat ts i hfail
  · intro e n w d ty c hfail
    have hempty : ∀ p : Pos, e.startPos = some p →
        (sampleLoop ty p.latitude 0 e.ticks []).1 = [] := by
      intro p _
      rw [sampleLoop_all_none ty p.latitude e.ticks 0 hfail]
    obtain ⟨hf, hc, -⟩ := run_test_phase_failure e n w d ty c
      (Or.inr (Or.inr (Or.inr (Or.inr (Or.inr (Or.inr (Or.inr hempty)))))))
    refine ⟨hf, hc, ?_⟩
    intro dta hdta
    obtain ⟨-, hto, sp, hsp, hsam⟩ := run_test_data_meta e n w d ty c dta hdta
    rw [hto, hsam, hempty sp hsp]
    simp

/-- C2 witness: a run whose ticks are the 21 all-miss reads is scored as
failed. -/
theorem claim2_witness :
    (run_test (envWith missTicks) 1 4 3 .autoDrop ⟨0, 0, 0⟩).2.failed = 1 :=
  (claim2_amended_thm.2 (envWith missTicks) 1 4 3 .autoDrop ⟨0, 0, 0⟩
    (by
      intro t ht la el
      have ht' : t = badTick := by simpa [envWith, missTicks] using ht
      subst ht'
      rfl)).1

/-- C3: the completion test is a function of only the latest sample and the
operation type, and the collection loop terminates early exactly at the
first sample that satisfies it: on a DEPLOY (`autoDrop`) run every sample
before the last has scope ratio below 5.0 and the early flag is set iff the
last sample's scope ratio reaches 5.0; on a RETRIEVE (`autoRetrieve`) run
every sample before the last has deployed rode above 0.1 m and the early
flag is set iff the last sample's rode is at most 0.1 m. -/
theorem claim3_thm (lat : Rat) (ticks : List TickReads) :
    ((∀ s ∈ (sampleLoop .autoDrop lat 0 ticks []).1.dropLast,
        scopeOf s < 5) ∧
      ((sampleLoop .autoDrop lat 0 ticks []).2 = true ↔
        ∃ s, (sampleLoop .autoDrop lat 0 ticks []).1.getLast? = some s ∧
          5 ≤ scopeOf s)) ∧
    ((∀ s ∈ (sampleLoop .autoRetrieve lat 0 ticks []).1.dropLast,
        1/10 < rodeOf s) ∧
      ((sampleLoop .autoRetrieve lat 0 ticks []).2 = true ↔
        ∃ s, (sampleLoop .autoRetrieve lat 0 ticks []).1.getLast? = some s ∧
          rodeOf s ≤ 1/10)) := by
  obtain ⟨hd1, hd2⟩ := sampleLoop_invariant .autoDrop lat ticks 0 [] (by simp)
  obtain ⟨hr1, hr2⟩ :=
    sampleLoop_invariant .autoRetrieve lat ticks 0 [] (by simp)
  refine ⟨⟨?_, ?_⟩, ?_, ?_⟩
  · intro s hs
    have h := hd1 s hs
    simpa [completionDetector, decide_eq_false_iff_not, not_le] using h
  · rw [hd2]; simp [completionDetector]
  · intro s hs
    have h := hr1 s hs
    simpa [completionDetector, decide_eq_false_iff_not, not_le] using h
  · rw [hr2]; simp [completionDetector]

/-- C4: after any number of processed matrix entries starting from fresh
counters, `tests_completed = tests_passed + tests_failed`, and
`tests_completed` never exceeds the matrix size (wind speeds × depths ×
test types). -/
theorem claim4_thm (envs : Nat → Env) (k : Nat) :
    (runTests envs (test_matrix.take k) 1 ⟨0, 0, 0⟩).completed
      = (runTests envs (test_matrix.take k) 1 ⟨0, 0, 0⟩).passed
        + (runTests envs (test_matrix.take k) 1 ⟨0, 0, 0⟩).failed ∧
    (runTests envs (test_matrix.take k) 1 ⟨0, 0, 0⟩).completed
      ≤ WIND_SPEEDS.length * DEPTHS.length * TEST_TYPES.length := by
  obtain ⟨hc, hpf⟩ := runTests_counters envs (test_matrix.take k) 1 ⟨0, 0, 0⟩
  have hle : (test_matrix.take k).length ≤ test_matrix.length :=
    (List.take_sublist k test_matrix).length_le
  have hm : test_matrix.length = 48 := rfl
  have hsz : WIND_SPEEDS.length * DEPTHS.length * TEST_TYPES.length = 48 := rfl
  have h0a : ({ completed := 0, passed := 0, failed := 0 } : Counters).completed = 0 := rfl
  have h0b : ({ completed := 0, passed := 0, failed := 0 } : Counters).passed = 0 := rfl
  have h0c : ({ completed := 0, passed := 0, failed := 0 } : Counters).failed = 0 := rfl
  omega

/-- C5 counterexample: a call made with an expired token `1` fails with an
authorization error; a fresh authentication is available (token `2`) and
the same call with token `2` would succeed with value `7`, yet
`get_signalk_value` returns `None` — it does not re-authenticate and retry,
contradicting the claim. -/
theorem claim5_counterexample :
    get_signalk_value apiCx (some 1) = none ∧
    apiCx.call 1 = .authError ∧
    apiCx.auth = some 2 ∧
    apiCx.call 2 = .ok 7 := by
  refine ⟨?_, ?_, rfl, ?_⟩ <;> norm_num [get_signalk_value, apiCx]

/-- C5 amended: on any call failure — authorization failures included —
`get_signalk_value` returns `None` without re-authenticating or retrying;
a token is fetched at most once, and only when none is supplied. -/
theorem claim5_amended_thm (env : ApiEnv) (t : Token)
    (h : env.call t = .authError) :
    get_signalk_value env (some t) = none := by
  simp [get_signalk_value, h]

/-- C5 witness: the amended behavior at the concrete environment. -/
theorem claim5_witness : get_signalk_value apiCx (some 1) = none :=
  claim5_amended_thm apiCx 1 (by norm_num [apiCx])

/-- C6: when the initial health check reads a `$source` without the live
`ws.` prefix (UNREACHABLE) and the out-of-band restart POST goes through,
the monitor reports REACHABLE (`true`) iff one of its 5 reconnection polls
passes the health check — equivalently, it reports permanent failure
(`false`) exactly after all 5 polls fail. -/
theorem claim6_thm (h : HealthEnv) (src : List Char)
    (hsrc : h.initialCheck.rodeSource = some src)
    (hpre : wsTag.isPrefixOf src = false)
    (hpost : h.restart.restartPostOk = true) :
    (ensure_chain_controller h = true ↔
      ∃ j, j < 5 ∧ check_chain_controller (h.restart.polls j) = true) := by
  have hck : check_chain_controller h.initialCheck = false := by
    unfold check_chain_controller
    rcases h.initialCheck.token with _ | t
    · rfl
    · rw [hsrc]
      exact hpre
  unfold ensure_chain_controller
  rw [hck]
  simp only [Bool.false_eq_true, if_false]
  unfold restart_chain_controller
  rw [hpost]
  simp only [if_true]
  simpa using pollLoop_iff h.restart.polls 5 0

/-- C6 witness: an unreachable controller whose third poll reconnects. -/
theorem claim6_witness :
    (ensure_chain_controller healthCx = true ↔
      ∃ j, j < 5 ∧ check_chain_controller (healthCx.restart.polls j) = true) :=
  claim6_thm healthCx ['x'] rfl (by decide) rfl

/-- C7: a failure in any phase of a test — authentication, health check,
stop/reset, configuration, initial position, command issue, or sampling
that yields no samples — is scored as a failed test (failed and completed
each rise by one, passed is untouched), and the matrix loop processes every
entry of the matrix regardless of the environments: no per-test error
aborts the session. -/
theorem claim7_thm :
    (∀ (e : Env) (n w d : Nat) (ty : TestType) (c : Counters),
      phaseFailure e ty →
      (run_test e n w d ty c).2.failed = c.failed + 1 ∧
      (run_test e n w d ty c).2.completed = c.completed + 1 ∧
      (run_test e n w d ty c).2.passed = c.passed) ∧
    (∀ envs : Nat → Env,
      (runTests envs test_matrix 1 ⟨0, 0, 0⟩).completed
        = test_matrix.length) := by
  constructor
  · intro e n w d ty c hfail
    exact run_test_phase_failure e n w d ty c hfail
  · intro envs
    obtain ⟨hc, -⟩ := runTests_counters envs test_matrix 1 ⟨0, 0, 0⟩
    simpa using hc

/-- C7 witness: a test whose authentication fails is scored failed without
aborting anything. -/
theorem claim7_witness :
    (run_test { envWith [] with token := none } 1 4 3 .autoDrop
      ⟨0, 0, 0⟩).2.failed = 1 :=
  (claim7_thm.1 { envWith [] with token := none } 1 4 3 .autoDrop ⟨0, 0, 0⟩
    (Or.inl rfl)).1

/-- C8: a tick whose position and speed reads succeed and whose heading
read succeeds with exactly 0 radians (due north) produces no sample —
`heading` is tested for truthiness and `0.0` is falsy — whereas a speed of
exactly 0 does not drop the tick, because speed is tested with
`is not None`. -/
theorem claim8_thm :
    (∀ (t : TickReads) (p : Pos) (v : Rat) (lat el : Rat),
      t.pos = some p → t.speed = some v → t.headingRad = some 0 →
      collect_sample t lat el = none) ∧
    (∀ (t : TickReads) (p : Pos) (lat el : Rat),
      t.pos = some p → t.speed = some 0 → t.headingRad = some 1 →
      (collect_sample t lat el).isSome = true) := by
  constructor
  · intro t p v lat el hp hs hh
    unfold collect_sample
    rw [hp, hs, hh]
    norm_num [get_heading]
  · intro t p lat el hp hs hh
    unfold collect_sample
    rw [hp, hs, hh]
    norm_num [get_heading, piFloat]

/-- C8 witness: the due-north tick is dropped; the zero-speed tick is not. -/
theorem claim8_witness :
    collect_sample northTick 1 0 = none ∧
    (collect_sample zeroSpeedTick 1 0).isSome = true :=
  ⟨claim8_thm.1 northTick ⟨1, 2⟩ 3 1 0 rfl rfl rfl,
   claim8_thm.2 zeroSpeedTick ⟨1, 2⟩ 1 0 rfl rfl rfl⟩

/-- C9: every emitted sample's `distance_from_start` equals
`(latitude − start latitude) / 0.000009`; it depends only on latitude, so a
displacement purely in longitude yields 0 and a southward displacement
yields a negative value — a signed north displacement, not a distance. -/
theorem claim9_thm (t : TickReads) (p : Pos) (lat el : Rat) (s : Sample)
    (hp : t.pos = some p) (hc : collect_sample t lat el = some s) :
    s.distance_from_start = (p.latitude - lat) / METERS_TO_LAT ∧
    (p.latitude = lat → s.distance_from_start = 0) ∧
    (p.latitude < lat → s.distance_from_start < 0) := by
  rcases hv : t.speed with _ | v
  · have hnone : collect_sample t lat el = none := by
      unfold collect_sample; rw [hp, hv]
    rw [hnone] at hc; exact absurd hc (by simp)
  rcases hh : get_heading t.headingRad with _ | h
  · have hnone : collect_sample t lat el = none := by
      unfold collect_sample; rw [hp, hv, hh]
    rw [hnone] at hc; exact absurd hc (by simp)
  have hkey : collect_sample t lat el
      = if h = 0 then none
        else some
          { elapsed_sec := el
          , position := { latitude := p.latitude
                        , longitude := p.longitude
                        , speed := v
                        , heading := if h = 0 then 0 else pyMod h 360 }
          , distance_from_start := (p.latitude - lat) / METERS_TO_LAT
          , simulation_state := t.simState } := by
    unfold collect_sample; rw [hp, hv, hh]
  rw [hkey] at hc
  by_cases h0 : h = 0
  · rw [if_pos h0] at hc; exact absurd hc (by simp)
  rw [if_neg h0] at hc
  injection hc with hc
  subst hc
  refine ⟨rfl, ?_, ?_⟩
  · intro heq
    simp [heq]
  · intro hlt
    apply div_neg_of_neg_of_pos
    · simpa using hlt
    · norm_num [METERS_TO_LAT]

/-- C9 witness: a tick taken at the start position has
`distance_from_start = 0`. -/
theorem claim9_witness :
    ((collect_sample doneTick 1 0).getD sample0).distance_from_start = 0 :=
  (claim9_thm doneTick ⟨1, 2⟩ 1 0 ((collect_sample doneTick 1 0).getD sample0)
    rfl
    (eq_some_getD sample0
      (by norm_num [collect_sample, get_heading, doneTick, piFloat,
        METERS_TO_LAT]))).2.1 rfl

/-- C10: every persisted test artifact has `test_metadata.completed = True`
unconditionally, and `test_metadata.timeout = true` iff the run collected
zero samples. -/
theorem claim10_thm (e : Env) (n w d : Nat) (ty : TestType) (c : Counters)
    (dta : TestData) (h : (run_test e n w d ty c).1 = some dta) :
    dta.meta.completed = true ∧
    (dta.meta.timeout = true ↔ dta.samples = []) := by
  obtain ⟨h1, h2, -⟩ := run_test_data_meta e n w d ty c dta h
  refine ⟨h1, ?_⟩
  rw [h2]
  simp [List.length_eq_zero]

/-- C10 witness: the artifact of a healthy one-tick run records
`completed = True`. -/
theorem claim10_witness :
    (((run_test (envWith [doneTick]) 1 4 3 .autoDrop ⟨0, 0, 0⟩).1.getD
      data0).meta.completed = true) :=
  (claim10_thm (envWith [doneTick]) 1 4 3 .autoDrop ⟨0, 0, 0⟩
    ((run_test (envWith [doneTick]) 1 4 3 .autoDrop ⟨0, 0, 0⟩).1.getD data0)
    (eq_some_getD data0
      (by
        have hen : ensure_chain_controller healthOk = true := by decide
        norm_num [run_test, envWith, hen, sampleLoop, collect_sample,
          get_heading, completionDetector, scopeOf, doneTick, piFloat,
          SAMPLE_INTERVAL, METERS_TO_LAT, mkSummary, maxSpeed]))).1

end Overnight
